import Mathlib

/-!
Verification of the procedural galaxy / cosmic-event particle generator and
its per-frame kinematics driver (Cosmic-Voyager-3D).  The TypeScript scene
components are shallowly embedded over the reals: JavaScript double
arithmetic is idealized as real arithmetic, except where a division can
produce a non-finite value (`NaN` / `Infinity`); such JavaScript numbers are
modelled as `Option ℝ`, with `none` standing for a non-finite value.
`Math.random()` draws are modelled as an arbitrary stream of real values in
`[0, 1)` — one stream per particle, indexed by draw site, since each
particle's draws are independent of every other particle's.

Source files: the three near-duplicate `GalaxyScene` components
(`src/unnamed/part_001` and the two variants inside `src/unnamed/part_002`)
and the enums of `src/types.ts`.
-/

noncomputable section

/-- `GalaxyType.SPIRAL` of `types.ts`.  TypeScript enum members are string
values, so galaxy/event types are embedded as `String`. -/
def GalaxyType.SPIRAL : String := "مارپیچی"

/-- `GalaxyType.BARRED_SPIRAL` of `types.ts`. -/
def GalaxyType.BARRED_SPIRAL : String := "مارپیچی میله‌ای"

/-- `GalaxyType.ELLIPTICAL` of `types.ts`. -/
def GalaxyType.ELLIPTICAL : String := "بیضوی"

/-- `GalaxyType.IRREGULAR` of `types.ts`. -/
def GalaxyType.IRREGULAR : String := "نامنظم"

/-- `GalaxyType.LENTICULAR` of `types.ts`. -/
def GalaxyType.LENTICULAR : String := "عدسی"

/-- `CosmicEvent.COLLISION` of `types.ts`. -/
def CosmicEvent.COLLISION : String := "برخورد دو کهکشان"

/-- `CosmicEvent.SUPERNOVA` of `types.ts`. -/
def CosmicEvent.SUPERNOVA : String := "انفجار ابرنواختر"

/-- `CosmicEvent.QUASAR` of `types.ts`. -/
def CosmicEvent.QUASAR : String := "کوازار (هسته فعال)"

/-- The eight recognized values of `GalaxyType ∪ CosmicEvent` (`types.ts`). -/
def knownTypes : List String :=
  [GalaxyType.SPIRAL, GalaxyType.BARRED_SPIRAL, GalaxyType.ELLIPTICAL,
   GalaxyType.IRREGULAR, GalaxyType.LENTICULAR,
   CosmicEvent.COLLISION, CosmicEvent.SUPERNOVA, CosmicEvent.QUASAR]

/-- The `GalaxyParams` interface of `types.ts`.  The two endpoint colours are
embedded already parsed to RGB triples (each channel in `[0, 1]`); hex-string
parsing by `THREE.Color` is outside the scope of the claims settled here, as
is the unused optional `isEvent` flag. -/
structure GalaxyParams where
  type : String
  starsCount : ℕ
  radius : ℝ
  branches : ℕ
  spin : ℝ
  randomness : ℝ
  randomnessPower : ℝ
  insideColor : ℝ × ℝ × ℝ
  outsideColor : ℝ × ℝ × ℝ

/-- JavaScript division with finiteness tracked: a zero divisor yields a
non-finite value (`NaN` for `0/0`, `±Infinity` otherwise), modelled as
`none`.  Every divisor appearing in the embedded generators is itself a
plain finite number, so only the result is `Option`-valued. -/
def jsDiv (x y : ℝ) : Option ℝ := if y = 0 then none else some (x / y)

/-- One colour channel of `THREE.Color.lerp`: `this.r += (c.r - this.r) * alpha`. -/
def lerpChannel (a b t : ℝ) : ℝ := a + (b - a) * t

/-- `colorInside.clone().lerp(colorOutside, t)` channelwise.  A non-finite
interpolation factor poisons every channel, because in JavaScript
`x + (y - x) * NaN` is `NaN` for every `x`, `y`. -/
def mixColor (cin cout : ℝ × ℝ × ℝ) (t : Option ℝ) : Option ℝ × Option ℝ × Option ℝ :=
  (t.map (lerpChannel cin.1 cout.1),
   t.map (lerpChannel cin.2.1 cout.2.1),
   t.map (lerpChannel cin.2.2 cout.2.2))

/-- The flat buffers produced for the main `stars` points object: `position`
and `color` are the `Float32Array`s handed to `setAttribute` (three entries
per particle); `velocities` is the side-channel array stored in `userData`
by the supernova generator (empty for the other branches of `part_001`). -/
structure GenResult where
  positions : List ℝ
  colors : List (Option ℝ)
  velocities : List ℝ

/-- Radius sample of the standard galaxy generator:
`Math.pow(Math.random(), 1.5) * params.radius` (`part_001` line 296). -/
def standardRadius (p : GalaxyParams) (rnd : ℕ → ℝ) : ℝ :=
  rnd 0 ^ (1.5 : ℝ) * p.radius

/-- Per-axis jitter of the standard galaxy generator (`part_001` lines
301–303): `Math.pow(Math.random(), randomnessPower) * (Math.random() < 0.5 ? 1 : -1)
* randomness * radius`, with `u` the power draw and `s` the sign draw. -/
def standardJitter (p : GalaxyParams) (radius u s : ℝ) : ℝ :=
  u ^ p.randomnessPower * (if s < 0.5 then 1 else -1) * p.randomness * radius

/-- One particle of the standard galaxy branch of `part_001` (lines 295–333):
position by type (elliptical sphere / lenticular bulge-plus-disk / flat
spiral disk) and colour by `colorInside.lerp(colorOutside, radius / params.radius)`.
The configuration is assumed to satisfy `branches ≥ 1` (in JavaScript
`i % 0` would be `NaN`; the data model requires at least one branch). -/
def standardStar (p : GalaxyParams) (count : ℕ) (rnd : ℕ → ℝ) (i : ℕ) :
    (ℝ × ℝ × ℝ) × (Option ℝ × Option ℝ × Option ℝ) :=
  let radius := standardRadius p rnd
  let spinAngle := radius * p.spin
  let branchAngle := ((i % p.branches : ℕ) : ℝ) / (p.branches : ℝ) * Real.pi * 2
  let totalAngle := spinAngle + branchAngle
  let rx := standardJitter p radius (rnd 1) (rnd 2)
  let ry := standardJitter p radius (rnd 3) (rnd 4)
  let rz := standardJitter p radius (rnd 5) (rnd 6)
  let pos :=
    if p.type = GalaxyType.ELLIPTICAL then
      let theta := rnd 7 * Real.pi * 2
      let phi := Real.arccos (rnd 8 * 2 - 1)
      (Real.sin phi * Real.cos theta * radius,
       Real.sin phi * Real.sin theta * radius * 0.7,
       Real.cos phi * radius * 0.85)
    else if p.type = GalaxyType.LENTICULAR then
      if (i : ℝ) < (count : ℝ) * 0.4 then
        let rb := rnd 9 ^ (2 : ℝ) * (p.radius * 0.35)
        let theta := rnd 10 * Real.pi * 2
        let phi := Real.arccos (rnd 11 * 2 - 1)
        (Real.sin phi * Real.cos theta * rb,
         Real.sin phi * Real.sin theta * rb * 0.8,
         Real.cos phi * rb)
      else
        (Real.cos totalAngle * radius + rx, ry * 0.12, Real.sin totalAngle * radius + rz)
    else
      (Real.cos totalAngle * radius + rx, ry * 0.3, Real.sin totalAngle * radius + rz)
  (pos, mixColor p.insideColor p.outsideColor (jsDiv radius p.radius))

/-- The standard galaxy generation block of `part_001` (final `else` branch,
lines 289–341): `count = params.starsCount` particles, three position floats
and three colour floats per particle. -/
def standardGen (p : GalaxyParams) (rnd : ℕ → ℕ → ℝ) : GenResult :=
  { positions := (List.range p.starsCount).flatMap fun i =>
      [(standardStar p p.starsCount (rnd i) i).1.1,
       (standardStar p p.starsCount (rnd i) i).1.2.1,
       (standardStar p p.starsCount (rnd i) i).1.2.2]
  , colors := (List.range p.starsCount).flatMap fun i =>
      [(standardStar p p.starsCount (rnd i) i).2.1,
       (standardStar p p.starsCount (rnd i) i).2.2.1,
       (standardStar p p.starsCount (rnd i) i).2.2.2]
  , velocities := [] }

/-- One particle of the `part_001` supernova generator (lines 173–187):
a small positional jitter around the origin and an isotropic velocity with
heavy-tailed speed `0.8 + Math.pow(Math.random(), 2) * 5.0`; the first
component is the position, the second the velocity. -/
def supernovaStar_p1 (rnd : ℕ → ℝ) : (ℝ × ℝ × ℝ) × (ℝ × ℝ × ℝ) :=
  let theta := rnd 0 * Real.pi * 2
  let phi := Real.arccos (rnd 1 * 2 - 1)
  let speed := 0.8 + rnd 2 ^ (2 : ℝ) * 5.0
  (((rnd 3 - 0.5) * 0.5, (rnd 4 - 0.5) * 0.5, (rnd 5 - 0.5) * 0.5),
   (Real.sin phi * Real.cos theta * speed,
    Real.sin phi * Real.sin theta * speed,
    Real.cos phi * speed))

/-- The `part_001` supernova generation branch (lines 167–198): a hardcoded
`count = 100000`, all colours written as `(1, 1, 1)`, velocities stored in
`userData`. -/
def supernovaGen_p1 (rnd : ℕ → ℕ → ℝ) : GenResult :=
  { positions := (List.range 100000).flatMap fun i =>
      [(supernovaStar_p1 (rnd i)).1.1,
       (supernovaStar_p1 (rnd i)).1.2.1,
       (supernovaStar_p1 (rnd i)).1.2.2]
  , colors := (List.range 100000).flatMap fun _ => [some 1, some 1, some 1]
  , velocities := (List.range 100000).flatMap fun i =>
      [(supernovaStar_p1 (rnd i)).2.1,
       (supernovaStar_p1 (rnd i)).2.2.1,
       (supernovaStar_p1 (rnd i)).2.2.2] }

/-- One particle of the `part_001` quasar accretion-disk generator
(lines 213–223): a centre-biased radius `0.8 + Math.pow(Math.random(), 1.5) * 6.0`,
a thin vertical scatter shrinking like `1/r`, and a colour keyed by `r/6`. -/
def quasarStar_p1 (p : GalaxyParams) (rnd : ℕ → ℝ) :
    (ℝ × ℝ × ℝ) × (Option ℝ × Option ℝ × Option ℝ) :=
  let r := 0.8 + rnd 0 ^ (1.5 : ℝ) * 6.0
  let angle := rnd 1 * Real.pi * 2
  ((Real.cos angle * r, (rnd 2 - 0.5) * 0.1 * (1 / r), Real.sin angle * r),
   mixColor p.insideColor p.outsideColor (jsDiv r 6))

/-- The `part_001` quasar generation branch (lines 208–229): a hardcoded
disk of `count = 150000` particles (the auxiliary black-hole sphere, glow
and jets are separate objects, not part of the main buffers). -/
def quasarGen_p1 (p : GalaxyParams) (rnd : ℕ → ℕ → ℝ) : GenResult :=
  { positions := (List.range 150000).flatMap fun i =>
      [(quasarStar_p1 p (rnd i)).1.1,
       (quasarStar_p1 p (rnd i)).1.2.1,
       (quasarStar_p1 p (rnd i)).1.2.2]
  , colors := (List.range 150000).flatMap fun i =>
      [(quasarStar_p1 p (rnd i)).2.1,
       (quasarStar_p1 p (rnd i)).2.2.1,
       (quasarStar_p1 p (rnd i)).2.2.2]
  , velocities := [] }

/-- `THREE.Vector3.lerp` componentwise: `v += (o - v) * t`. -/
def lerpVec (v o : ℝ × ℝ × ℝ) (t : ℝ) : ℝ × ℝ × ℝ :=
  (v.1 + (o.1 - v.1) * t, v.2.1 + (o.2.1 - v.2.1) * t, v.2.2 + (o.2.2 - v.2.2) * t)

/-- One particle of the `part_001` collision generator (lines 269–282):
disk sampling around one of the two cores `(-4,0,0)` / `(4,1,2)`, an
occasional tidal pull toward the other core, and the standard radius-keyed
colour rule. -/
def collisionStar_p1 (p : GalaxyParams) (count : ℕ) (rnd : ℕ → ℝ) (i : ℕ) :
    (ℝ × ℝ × ℝ) × (Option ℝ × Option ℝ × Option ℝ) :=
  let isGalaxyA := (i : ℝ) < (count : ℝ) * 0.5
  let targetCore : ℝ × ℝ × ℝ := if isGalaxyA then (-4, 0, 0) else (4, 1, 2)
  let otherCore : ℝ × ℝ × ℝ := if isGalaxyA then (4, 1, 2) else (-4, 0, 0)
  let r := rnd 0 ^ (1.4 : ℝ) * p.radius
  let angle := rnd 1 * Real.pi * 2
  let starPos := (Real.cos angle * r + targetCore.1,
                  (rnd 2 - 0.5) * 0.6 + targetCore.2.1,
                  Real.sin angle * r + targetCore.2.2)
  let pulled := if rnd 3 > 0.75 then lerpVec starPos otherCore (rnd 4 * 0.7) else starPos
  (pulled, mixColor p.insideColor p.outsideColor (jsDiv r p.radius))

/-- The `part_001` collision generation branch (lines 262–288):
`count = params.starsCount` particles. -/
def collisionGen_p1 (p : GalaxyParams) (rnd : ℕ → ℕ → ℝ) : GenResult :=
  { positions := (List.range p.starsCount).flatMap fun i =>
      [(collisionStar_p1 p p.starsCount (rnd i) i).1.1,
       (collisionStar_p1 p p.starsCount (rnd i) i).1.2.1,
       (collisionStar_p1 p p.starsCount (rnd i) i).1.2.2]
  , colors := (List.range p.starsCount).flatMap fun i =>
      [(collisionStar_p1 p p.starsCount (rnd i) i).2.1,
       (collisionStar_p1 p p.starsCount (rnd i) i).2.2.1,
       (collisionStar_p1 p p.starsCount (rnd i) i).2.2.2]
  , velocities := [] }

/-- The particle count actually used by each branch of the `part_001`
generator: `100000` for supernova and `150000` for quasar are hardcoded in
the source; collision and the standard branch use `params.starsCount`. -/
def genCount_p1 (p : GalaxyParams) : ℕ :=
  if p.type = CosmicEvent.SUPERNOVA then 100000
  else if p.type = CosmicEvent.QUASAR then 150000
  else p.starsCount

/-- The full generation dispatch of `part_001` (the `useEffect` at lines
151–342): an `if / else if / else` chain over `params.type` whose final
`else` is the standard galaxy block. -/
def generate_p1 (p : GalaxyParams) (rnd : ℕ → ℕ → ℝ) : GenResult :=
  if p.type = CosmicEvent.SUPERNOVA then supernovaGen_p1 rnd
  else if p.type = CosmicEvent.QUASAR then quasarGen_p1 p rnd
  else if p.type = CosmicEvent.COLLISION then collisionGen_p1 p rnd
  else standardGen p rnd

/-- One particle of the continuous-mode supernova kinematics step of
`part_001` (`animate`, lines 73–88): the position is integrated by
`velocity * 0.04`, the colour is recomputed from a radial heat falloff
`max(0, 1 - dist/18)` with red pinned to `1`, and a particle whose distance
exceeds `25` is recycled to the origin.  The first component of the result
is the new position, the second the new colour. -/
def snContinuousStep (pos vel : ℝ × ℝ × ℝ) : (ℝ × ℝ × ℝ) × (ℝ × ℝ × ℝ) :=
  let p1 := pos.1 + vel.1 * 0.04
  let p2 := pos.2.1 + vel.2.1 * 0.04
  let p3 := pos.2.2 + vel.2.2 * 0.04
  let dist := Real.sqrt (p1 ^ 2 + p2 ^ 2 + p3 ^ 2)
  let heat := max 0 (1 - dist / 18)
  ((if dist > 25 then (0, 0, 0) else (p1, p2, p3)),
   (1, heat ^ (1.2 : ℝ), heat ^ (2.5 : ℝ)))

/-- The differential-rotation angle of the `part_001` quasar step
(line 99): `0.02 * (5 / (r + 0.5))` — the Keplerian-style rate, decreasing
in the particle's own planar radius. -/
def quasarAngle_p1 (r : ℝ) : ℝ := 0.02 * (5 / (r + 0.5))

/-- One particle of the `part_001` quasar kinematics step (`animate`, lines
93–105): a small rotation about the vertical axis through `quasarAngle_p1`
of the particle's planar radius, plus a sinusoidal wobble added to `y`. -/
def quasarStep_p1 (x y z t : ℝ) : ℝ × ℝ × ℝ :=
  let r := Real.sqrt (x * x + z * z)
  let angle := quasarAngle_p1 r
  (x * Real.cos angle - z * Real.sin angle,
   y + Real.sin (t * 2 + r) * 0.002,
   x * Real.sin angle + z * Real.cos angle)

/-- The differential-rotation angle of the stateless `part_002` quasar step
(line 408): `0.04 * (4 / (r + 0.3))`. -/
def quasarAngle_p2 (r : ℝ) : ℝ := 0.04 * (4 / (r + 0.3))

/-- One particle of the stateless `part_002` quasar kinematics step
(`animate`, lines 403–412): rotation about the vertical axis through
`quasarAngle_p2`, with `y` overwritten by a sinusoidal turbulence term. -/
def quasarStep_p2 (x y z t : ℝ) : ℝ × ℝ × ℝ :=
  let r := Real.sqrt (x * x + z * z)
  let angle := quasarAngle_p2 r
  (x * Real.cos angle - z * Real.sin angle,
   Real.sin (t * 4 + r * 2) * 0.01,
   x * Real.sin angle + z * Real.cos angle)

/-- The rigid-rotation rate selection shared by `part_001` (lines 107–110)
and the stateless `part_002` driver (lines 449–452):
`(type === ELLIPTICAL || type === LENTICULAR) ? 0.02 : 0.05`. -/
def rotationSpeed_p1 (type : String) : ℝ :=
  if type = GalaxyType.ELLIPTICAL ∨ type = GalaxyType.LENTICULAR then 0.02 else 0.05

/-- `stars.rotation.y = elapsedTime * rotationSpeed` (`part_001` line 109). -/
def rotationY_p1 (type : String) (t : ℝ) : ℝ := t * rotationSpeed_p1 type

/-- The first `part_002` driver sets `stars.rotation.y = elapsedTime * 0.05`
unconditionally (lines 61–63), for every configured type. -/
def rotationY_p2first (t : ℝ) : ℝ := t * 0.05

/-- JavaScript `a % b` for a non-negative dividend `a` and positive divisor
`b` (the only way it is used here: `elapsedTime % duration` with
`elapsedTime ≥ 0`), expressed with the floor function. -/
def jsMod (a b : ℝ) : ℝ := a - b * (⌊a / b⌋ : ℝ)

/-- `progress = (elapsedTime % duration) / duration` with the 10-second loop
of the stateless `part_002` supernova mode (lines 375–376). -/
def snProgress (t : ℝ) : ℝ := jsMod t 10 / 10

/-- The position buffer written by one stateless `part_002` supernova step
(lines 383–390): every entry is overwritten with
`velocity * (progress * 15)`; the `progress < 0.01` zeroing pass that
precedes the loop writes the same entries and is subsumed by the overwrite. -/
def snPeriodicPositions (vels : List ℝ) (t : ℝ) : List ℝ :=
  vels.map fun v => v * (snProgress t * 15)

/-- The collision-mode centre separation of the stateless `part_002` driver
(lines 421–422): `dist = 8 * Math.cos(elapsedTime * 0.4)`. -/
def collisionDist (t : ℝ) : ℝ := 8 * Real.cos (t * 0.4)

/-- One particle of the stateless `part_002` collision kinematics step
(lines 424–446).  `old` is the entry previously stored in the position
buffer: the source only assigns to `positions`, never reads it, so the
result ignores `old` — the step is a pure overwrite computed from the
stored local-frame `initialPositions`, the `isGalaxyA` flag and the clock. -/
def collisionStepPos_p2 (old ip : ℝ × ℝ × ℝ) (isAi : Bool) (t : ℝ) : ℝ × ℝ × ℝ :=
  let dist := collisionDist t
  let centerA : ℝ × ℝ × ℝ := (dist, 0, 0)
  let centerB : ℝ × ℝ × ℝ := (-dist, 0, 0)
  let targetCenter := if isAi then centerA else centerB
  let rx := ip.1
  let rz := ip.2.2
  let angle := t * 0.5
  let rotX := rx * Real.cos angle - rz * Real.sin angle
  let rotZ := rx * Real.sin angle + rz * Real.cos angle
  let pull := max 0 (1 - |dist| / 5) * 2
  let driftX := if isAi then -pull else pull
  (rotX + targetCenter.1 + driftX,
   ip.2.1 + Real.sin (t + rx) * 0.2,
   rotZ + targetCenter.2.2)

/-- The buffers built by the collision generator of the stateless `part_002`
variant (lines 583–613): the main `pos` buffer, the `userData` side arrays
`initialPositions` and `isGalaxyA`.  The colour buffer (which involves
`THREE.Color.offsetHSL`) is not needed by any claim and is omitted. -/
structure CollisionGen2Result where
  pos : List ℝ
  initialPos : List ℝ
  isA : List Bool

/-- The local-frame sample of one particle of the stateless `part_002`
collision generator (lines 595–601). -/
def collisionGen2Particle (p : GalaxyParams) (rnd : ℕ → ℝ) : ℝ × ℝ × ℝ :=
  let r := rnd 0 ^ (1.5 : ℝ) * p.radius
  let a := rnd 1 * Real.pi * 2
  (Real.cos a * r, (rnd 2 - 0.5) * 0.5, Real.sin a * r)

/-- The body of the generation loop (lines 590–606): it appends to the
`initialPositions` and `isGalaxyA` side arrays but never assigns to the
main `pos` buffer. -/
def collisionGen2Step (p : GalaxyParams) (rnd : ℕ → ℕ → ℝ)
    (st : CollisionGen2Result) (i : ℕ) : CollisionGen2Result :=
  let q := collisionGen2Particle p (rnd i)
  { st with
    initialPos := st.initialPos ++ [q.1, q.2.1, q.2.2]
    isA := st.isA ++ [if (i : ℝ) < (150000 : ℝ) * 0.5 then true else false] }

/-- The stateless `part_002` collision generator (lines 583–613): the
hardcoded `count = 150000`, a `new Float32Array(count * 3)` position buffer
(zero-initialized, as all JavaScript typed arrays are) and the loop above. -/
def collisionGen2 (p : GalaxyParams) (rnd : ℕ → ℕ → ℝ) : CollisionGen2Result :=
  (List.range 150000).foldl (collisionGen2Step p rnd)
    { pos := List.replicate (150000 * 3) 0, initialPos := [], isA := [] }

/-- Every particle contributes a fixed number of entries, so a `flatMap`
over `List.range` has length `k * n`. -/
theorem length_flatMap_const {α : Type} (f : ℕ → List α) (k : ℕ)
    (h : ∀ i, (f i).length = k) (n : ℕ) :
    ((List.range n).flatMap f).length = k * n := by
  induction n with
  | zero => simp
  | succ m ih =>
      rw [List.range_succ, List.flatMap_append]
      simp [ih, h, Nat.mul_succ]

/-- A rotation through any angle preserves the sum of squares of the two
rotated coordinates. -/
theorem rot_preserve_sq (x z a : ℝ) :
    (x * Real.cos a - z * Real.sin a) ^ 2 + (x * Real.sin a + z * Real.cos a) ^ 2
      = x ^ 2 + z ^ 2 := by
  linear_combination (x ^ 2 + z ^ 2) * Real.sin_sq_add_cos_sq a

/-- C5: for every particle, one quasar kinematics step (in either scene
variant) leaves the particle's planar radius `sqrt(x² + z²)` unchanged —
over the reals the small-angle rotation about the vertical axis is exactly
radius-preserving, whatever the radius-dependent angle evaluates to. -/
theorem quasar_step_preserves_planar_radius (x y z t : ℝ) :
    Real.sqrt ((quasarStep_p1 x y z t).1 ^ 2 + (quasarStep_p1 x y z t).2.2 ^ 2)
        = Real.sqrt (x ^ 2 + z ^ 2)
    ∧ Real.sqrt ((quasarStep_p2 x y z t).1 ^ 2 + (quasarStep_p2 x y z t).2.2 ^ 2)
        = Real.sqrt (x ^ 2 + z ^ 2) := by
  constructor
  · simp only [quasarStep_p1]
    rw [rot_preserve_sq]
  · simp only [quasarStep_p2]
    rw [rot_preserve_sq]

/-- C7: the collision-mode centre separation `D(t) = 8·cos(0.4·t)` stays in
`[-8, 8]` for every elapsed time and is periodic with period `2π/0.4`. -/
theorem collision_separation_bounded_periodic (t : ℝ) :
    -8 ≤ collisionDist t ∧ collisionDist t ≤ 8
      ∧ collisionDist (t + 2 * Real.pi / 0.4) = collisionDist t := by
  refine ⟨?_, ?_, ?_⟩
  · have h := Real.neg_one_le_cos (t * 0.4)
    simp only [collisionDist]
    linarith
  · have h := Real.cos_le_one (t * 0.4)
    simp only [collisionDist]
    linarith
  · simp only [collisionDist]
    rw [show (t + 2 * Real.pi / 0.4) * 0.4 = t * 0.4 + 2 * Real.pi by ring,
        Real.cos_add_two_pi]

/-- The generation loop of the stateless `part_002` collision generator
never assigns to the main position buffer. -/
theorem collisionGen2_foldl_pos (p : GalaxyParams) (rnd : ℕ → ℕ → ℝ) :
    ∀ (l : List ℕ) (st : CollisionGen2Result),
      (l.foldl (collisionGen2Step p rnd) st).pos = st.pos := by
  intro l
  induction l with
  | nil => intro st; rfl
  | cons a l ih =>
      intro st
      rw [List.foldl_cons, ih]
      rfl

/-- C9: in the stateless-kinematics `part_002` variant, the collision
generator leaves the main position buffer exactly as allocated — all
`150000 * 3` entries zero — and the collision kinematics step is a pure
overwrite: its output for a particle does not depend on the old position
entry, only on the stored local-frame initial position, the group flag and
the clock. -/
theorem collision_gen2_pos_zero (p : GalaxyParams) (rnd : ℕ → ℕ → ℝ)
    (old₁ old₂ ip : ℝ × ℝ × ℝ) (b : Bool) (t : ℝ) :
    (collisionGen2 p rnd).pos = List.replicate (150000 * 3) 0
    ∧ collisionStepPos_p2 old₁ ip b t = collisionStepPos_p2 old₂ ip b t := by
  exact ⟨collisionGen2_foldl_pos p rnd _ _, rfl⟩

/-- C6 counterexample: the first `part_002` driver applies the rigid
rotation `elapsedTime * 0.05` to the active particle system for every
configured type, so at `t = 1` with an elliptical (or lenticular)
configuration it sets the rotation to `0.05`, not the claimed `1 * 0.02`. -/
theorem rigid_rotation_rate_unconditional : rotationY_p2first 1 ≠ 1 * 0.02 := by
  norm_num [rotationY_p2first]

/-- C6 (amended): in the `part_001` driver and the stateless `part_002`
driver the whole-object rotation is `t * 0.02` for elliptical/lenticular
and `t * 0.05` for the other galaxy morphologies, while the first
`part_002` driver rotates at `t * 0.05` regardless of type. -/
theorem rigid_rotation_rates (t : ℝ) :
    rotationY_p1 GalaxyType.ELLIPTICAL t = t * 0.02
    ∧ rotationY_p1 GalaxyType.LENTICULAR t = t * 0.02
    ∧ rotationY_p1 GalaxyType.SPIRAL t = t * 0.05
    ∧ rotationY_p1 GalaxyType.BARRED_SPIRAL t = t * 0.05
    ∧ rotationY_p1 GalaxyType.IRREGULAR t = t * 0.05
    ∧ rotationY_p2first t = t * 0.05 := by
  refine ⟨?_, ?_, ?_, ?_, ?_, rfl⟩
  · show t * rotationSpeed_p1 GalaxyType.ELLIPTICAL = t * 0.02
    unfold rotationSpeed_p1
    rw [if_pos (Or.inl rfl)]
  · show t * rotationSpeed_p1 GalaxyType.LENTICULAR = t * 0.02
    unfold rotationSpeed_p1
    rw [if_pos (Or.inr rfl)]
  · show t * rotationSpeed_p1 GalaxyType.SPIRAL = t * 0.05
    unfold rotationSpeed_p1
    rw [if_neg (by decide)]
  · show t * rotationSpeed_p1 GalaxyType.BARRED_SPIRAL = t * 0.05
    unfold rotationSpeed_p1
    rw [if_neg (by decide)]
  · show t * rotationSpeed_p1 GalaxyType.IRREGULAR = t * 0.05
    unfold rotationSpeed_p1
    rw [if_neg (by decide)]

/-- C10: after one continuous-mode supernova step the particle's distance
from the origin is at most the recycle threshold 25 (a particle whose
integrated position exceeds the threshold is reset to the origin within the
same step), the red channel is exactly 1, and the green and blue channels
lie in `[0, 1]`. -/
theorem supernova_continuous_invariants (pos vel : ℝ × ℝ × ℝ) :
    Real.sqrt ((snContinuousStep pos vel).1.1 ^ 2 + (snContinuousStep pos vel).1.2.1 ^ 2
        + (snContinuousStep pos vel).1.2.2 ^ 2) ≤ 25
    ∧ (Real.sqrt ((pos.1 + vel.1 * 0.04) ^ 2 + (pos.2.1 + vel.2.1 * 0.04) ^ 2
        + (pos.2.2 + vel.2.2 * 0.04) ^ 2) > 25 → (snContinuousStep pos vel).1 = (0, 0, 0))
    ∧ (snContinuousStep pos vel).2.1 = 1
    ∧ 0 ≤ (snContinuousStep pos vel).2.2.1 ∧ (snContinuousStep pos vel).2.2.1 ≤ 1
    ∧ 0 ≤ (snContinuousStep pos vel).2.2.2 ∧ (snContinuousStep pos vel).2.2.2 ≤ 1 := by
  have hd : 0 ≤ Real.sqrt ((pos.1 + vel.1 * 0.04) ^ 2 + (pos.2.1 + vel.2.1 * 0.04) ^ 2
      + (pos.2.2 + vel.2.2 * 0.04) ^ 2) := Real.sqrt_nonneg _
  have hh0 : 0 ≤ max 0 (1 - Real.sqrt ((pos.1 + vel.1 * 0.04) ^ 2
      + (pos.2.1 + vel.2.1 * 0.04) ^ 2 + (pos.2.2 + vel.2.2 * 0.04) ^ 2) / 18) :=
    le_max_left _ _
  have hh1 : max 0 (1 - Real.sqrt ((pos.1 + vel.1 * 0.04) ^ 2
      + (pos.2.1 + vel.2.1 * 0.04) ^ 2 + (pos.2.2 + vel.2.2 * 0.04) ^ 2) / 18) ≤ 1 :=
    max_le (by norm_num) (by linarith)
  refine ⟨?_, ?_, rfl, Real.rpow_nonneg hh0 _, Real.rpow_le_one hh0 hh1 (by norm_num),
    Real.rpow_nonneg hh0 _, Real.rpow_le_one hh0 hh1 (by norm_num)⟩
  · by_cases h : Real.sqrt ((pos.1 + vel.1 * 0.04) ^ 2 + (pos.2.1 + vel.2.1 * 0.04) ^ 2
        + (pos.2.2 + vel.2.2 * 0.04) ^ 2) > 25
    · have he : (snContinuousStep pos vel).1 = ((0 : ℝ), (0 : ℝ), (0 : ℝ)) := by
        simp [snContinuousStep, h]
      rw [he]
      norm_num
    · have he : (snContinuousStep pos vel).1
          = (pos.1 + vel.1 * 0.04, pos.2.1 + vel.2.1 * 0.04, pos.2.2 + vel.2.2 * 0.04) := by
        simp [snContinuousStep, h]
      rw [he]
      exact le_of_not_lt h
  · intro hc
    simp [snContinuousStep, hc]

/-- C10 witness: for a concrete particle at `(30, 0, 0)` with zero velocity
the integrated distance is 30 > 25, and the step resets it to the origin. -/
theorem supernova_continuous_invariants_witness :
    (snContinuousStep (30, 0, 0) (0, 0, 0)).1 = (0, 0, 0) := by
  have h := (supernova_continuous_invariants (30, 0, 0) (0, 0, 0)).2.1
  apply h
  show Real.sqrt (((30 : ℝ) + 0 * 0.04) ^ 2 + ((0 : ℝ) + 0 * 0.04) ^ 2
      + ((0 : ℝ) + 0 * 0.04) ^ 2) > 25
  have e : ((30 : ℝ) + 0 * 0.04) ^ 2 + ((0 : ℝ) + 0 * 0.04) ^ 2
      + ((0 : ℝ) + 0 * 0.04) ^ 2 = 30 ^ 2 := by norm_num
  rw [e, Real.sqrt_sq (by norm_num : (0 : ℝ) ≤ 30)]
  norm_num

/-- `elapsedTime % 10` is invariant under a 10-second shift. -/
theorem jsMod_add_ten (t : ℝ) : jsMod (t + 10) 10 = jsMod t 10 := by
  unfold jsMod
  rw [show (t + 10) / 10 = t / 10 + 1 by ring, Int.floor_add_one]
  push_cast
  ring

/-- C4: in the stateless supernova mode of `part_002` (10-second period),
a step at `t` and a step at `t + 10` write identical position buffers
(exactly, hence a fortiori within the 1e-6 tolerance), and whenever the
loop progress is zero every particle position is the origin. -/
theorem supernova_periodic_step (vels : List ℝ) (t : ℝ) (h : 0 ≤ t) :
    snPeriodicPositions vels (t + 10) = snPeriodicPositions vels t
    ∧ (snProgress t = 0 → ∀ x ∈ snPeriodicPositions vels t, x = 0) := by
  constructor
  · unfold snPeriodicPositions snProgress
    rw [jsMod_add_ten]
  · intro hp x hx
    simp only [snPeriodicPositions, List.mem_map] at hx
    obtain ⟨v, -, rfl⟩ := hx
    rw [hp]
    ring

/-- C4 witness: at `t = 5` the buffers at 5 s and 15 s coincide, and at
`t = 10` the progress is zero and the buffer is all origins. -/
theorem supernova_periodic_step_witness :
    snPeriodicPositions [1, 2, 3] (5 + 10) = snPeriodicPositions [1, 2, 3] 5
    ∧ (∀ x ∈ snPeriodicPositions [1, 2, 3] 10, x = 0) := by
  refine ⟨(supernova_periodic_step [1, 2, 3] 5 (by norm_num)).1, ?_⟩
  refine (supernova_periodic_step [1, 2, 3] 10 (by norm_num)).2 ?_
  unfold snProgress jsMod
  norm_num

/-- The standard galaxy block writes three position floats and three colour
floats per particle, for `starsCount` particles. -/
theorem standardGen_lengths (p : GalaxyParams) (rnd : ℕ → ℕ → ℝ) :
    (standardGen p rnd).positions.length = 3 * p.starsCount
    ∧ (standardGen p rnd).colors.length = 3 * p.starsCount := by
  constructor <;>
  · simp only [standardGen]
    apply length_flatMap_const
    intro i
    rfl

/-- The `part_001` supernova branch writes `3 * 100000` entries. -/
theorem supernovaGen_p1_lengths (rnd : ℕ → ℕ → ℝ) :
    (supernovaGen_p1 rnd).positions.length = 3 * 100000
    ∧ (supernovaGen_p1 rnd).colors.length = 3 * 100000 := by
  constructor <;>
  · simp only [supernovaGen_p1]
    apply length_flatMap_const
    intro i
    rfl

/-- The `part_001` quasar branch writes `3 * 150000` entries. -/
theorem quasarGen_p1_lengths (p : GalaxyParams) (rnd : ℕ → ℕ → ℝ) :
    (quasarGen_p1 p rnd).positions.length = 3 * 150000
    ∧ (quasarGen_p1 p rnd).colors.length = 3 * 150000 := by
  constructor <;>
  · simp only [quasarGen_p1]
    apply length_flatMap_const
    intro i
    rfl

/-- The `part_001` collision branch writes `3 * starsCount` entries. -/
theorem collisionGen_p1_lengths (p : GalaxyParams) (rnd : ℕ → ℕ → ℝ) :
    (collisionGen_p1 p rnd).positions.length = 3 * p.starsCount
    ∧ (collisionGen_p1 p rnd).colors.length = 3 * p.starsCount := by
  constructor <;>
  · simp only [collisionGen_p1]
    apply length_flatMap_const
    intro i
    rfl

/-- C1 (amended): the position and colour buffers always hold exactly three
entries per generated particle, but the number of generated particles is
`starsCount` only for the galaxy morphologies and the `part_001` collision
branch — the supernova and quasar branches hardcode their counts (100000
and 150000 in `part_001`). -/
theorem generator_buffer_lengths (p : GalaxyParams) (rnd : ℕ → ℕ → ℝ) :
    (generate_p1 p rnd).positions.length = 3 * genCount_p1 p
    ∧ (generate_p1 p rnd).colors.length = 3 * genCount_p1 p := by
  unfold generate_p1 genCount_p1
  by_cases h1 : p.type = CosmicEvent.SUPERNOVA
  · simp only [if_pos h1]
    exact supernovaGen_p1_lengths rnd
  · simp only [if_neg h1]
    by_cases h2 : p.type = CosmicEvent.QUASAR
    · simp only [if_pos h2]
      exact quasarGen_p1_lengths p rnd
    · simp only [if_neg h2]
      by_cases h3 : p.type = CosmicEvent.COLLISION
      · simp only [if_pos h3]
        exact collisionGen_p1_lengths p rnd
      · simp only [if_neg h3]
        exact standardGen_lengths p rnd

/-- A fixed random stream for the concrete counterexamples and witnesses:
every `Math.random()` draw returns `1/2`. -/
def rndHalf : ℕ → ℕ → ℝ := fun _ _ => 1 / 2

/-- A supernova configuration whose `starsCount` is 7. -/
def paramsSN7 : GalaxyParams :=
  { type := CosmicEvent.SUPERNOVA, starsCount := 7, radius := 5, branches := 3,
    spin := 1, randomness := 0.2, randomnessPower := 3,
    insideColor := (1, 0, 0), outsideColor := (0, 0, 1) }

/-- C1 counterexample: for a supernova configuration with `starsCount = 7`
the generated position buffer has `3 * 100000` entries, not
`3 * starsCount` — the supernova branch ignores `starsCount`. -/
theorem supernova_ignores_starsCount :
    (generate_p1 paramsSN7 rndHalf).positions.length ≠ 3 * paramsSN7.starsCount := by
  have e : generate_p1 paramsSN7 rndHalf = supernovaGen_p1 rndHalf := by
    unfold generate_p1
    rw [if_pos (show paramsSN7.type = CosmicEvent.SUPERNOVA from rfl)]
  rw [e, (supernovaGen_p1_lengths rndHalf).1]
  norm_num [paramsSN7]

/-- An unrecognized `params.type` falls through every event test of the
`part_001` dispatch into the final `else`. -/
theorem generate_p1_else (p : GalaxyParams) (rnd : ℕ → ℕ → ℝ)
    (h1 : p.type ≠ CosmicEvent.SUPERNOVA) (h2 : p.type ≠ CosmicEvent.QUASAR)
    (h3 : p.type ≠ CosmicEvent.COLLISION) :
    generate_p1 p rnd = standardGen p rnd := by
  unfold generate_p1
  rw [if_neg h1, if_neg h2, if_neg h3]

/-- A configuration whose `type` string is none of the eight enumerated
values. -/
def paramsUnknown : GalaxyParams :=
  { type := "سیاهچاله", starsCount := 2, radius := 1, branches := 2, spin := 0,
    randomness := 0, randomnessPower := 1, insideColor := (1, 0, 0),
    outsideColor := (0, 0, 1) }

/-- C2 counterexample: an unrecognized type value is not treated as a fatal
or unreachable condition — generation silently produces exactly the same
defaulted (standard-galaxy) particle set as a spiral configuration with the
same parameters. -/
theorem unrecognized_type_not_fatal :
    paramsUnknown.type ∉ knownTypes
    ∧ generate_p1 paramsUnknown rndHalf
        = generate_p1 { paramsUnknown with type := GalaxyType.SPIRAL } rndHalf := by
  constructor
  · decide
  · rw [generate_p1_else _ _ (by decide) (by decide) (by decide),
        generate_p1_else _ _ (by decide) (by decide) (by decide)]
    rfl

/-- C2 (amended): for every configuration whose type is not one of the
eight enumerated values, generation silently falls through to the standard
galaxy block — the dispatch ends in a catch-all `else`, so unrecognized
types are defaulted, not rejected. -/
theorem unrecognized_type_silently_defaults (p : GalaxyParams) (rnd : ℕ → ℕ → ℝ)
    (h : p.type ∉ knownTypes) :
    generate_p1 p rnd = standardGen p rnd := by
  refine generate_p1_else p rnd ?_ ?_ ?_
  · intro hc
    exact h (by rw [hc]; decide)
  · intro hc
    exact h (by rw [hc]; decide)
  · intro hc
    exact h (by rw [hc]; decide)

/-- C2 witness: the concrete unrecognized configuration above is silently
routed to the standard generation block. -/
theorem unrecognized_type_silently_defaults_witness :
    paramsUnknown.type ∉ knownTypes
    ∧ generate_p1 paramsUnknown rndHalf = standardGen paramsUnknown rndHalf := by
  have h : paramsUnknown.type ∉ knownTypes := by decide
  exact ⟨h, unrecognized_type_silently_defaults paramsUnknown rndHalf h⟩

/-- A spiral configuration with `radius = 0` and one star (all other fields
valid). -/
def paramsRadius0 : GalaxyParams :=
  { type := GalaxyType.SPIRAL, starsCount := 1, radius := 0, branches := 1,
    spin := 1, randomness := 0.2, randomnessPower := 3,
    insideColor := (1, 0, 0), outsideColor := (0, 0, 1) }

/-- C3 counterexample: with `radius = 0` (and `branches = 1`,
`starsCount = 1`, all other fields valid) the colour interpolation factor
is the division `0 / 0`, i.e. `NaN`, so the colour buffer contains
non-finite entries — generation does not keep every written entry a
well-defined finite number. -/
theorem radius_zero_nan_colors :
    none ∈ (generate_p1 paramsRadius0 rndHalf).colors := by
  have e : generate_p1 paramsRadius0 rndHalf = standardGen paramsRadius0 rndHalf :=
    generate_p1_else _ _ (by decide) (by decide) (by decide)
  rw [e]
  simp [standardGen, standardStar, mixColor, jsDiv, paramsRadius0]

/-- C3 (amended): for the standard galaxy block, `starsCount = 0` yields
empty buffers, and every position entry is a plain (finite) real for any
configuration; the colour entries are finite exactly when `radius ≠ 0` —
with `radius = 0` and at least one particle, every colour entry is the
non-finite result of the `0/0` interpolation factor.  `branches = 1` poses
no hazard (the branch-angle divisor is 1). -/
theorem degenerate_inputs_behavior (p : GalaxyParams) (rnd : ℕ → ℕ → ℝ) :
    (p.starsCount = 0 → (standardGen p rnd).positions = [] ∧ (standardGen p rnd).colors = [])
    ∧ (p.radius ≠ 0 → ∀ c ∈ (standardGen p rnd).colors, c.isSome = true)
    ∧ (p.radius = 0 → ∀ c ∈ (standardGen p rnd).colors, c = none) := by
  refine ⟨?_, ?_, ?_⟩
  · intro h
    constructor <;> simp [standardGen, h]
  · intro h c hc
    simp only [standardGen, List.mem_flatMap, List.mem_range, List.mem_cons,
      List.not_mem_nil, or_false] at hc
    obtain ⟨i, -, hm⟩ := hc
    have hv : jsDiv (standardRadius p (rnd i)) p.radius
        = some (standardRadius p (rnd i) / p.radius) := by
      unfold jsDiv
      rw [if_neg h]
    rcases hm with rfl | rfl | rfl <;> simp [standardStar, mixColor, hv]
  · intro h c hc
    simp only [standardGen, List.mem_flatMap, List.mem_range, List.mem_cons,
      List.not_mem_nil, or_false] at hc
    obtain ⟨i, -, hm⟩ := hc
    have hv : jsDiv (standardRadius p (rnd i)) p.radius = none := by
      unfold jsDiv
      rw [if_pos h]
    rcases hm with rfl | rfl | rfl <;> simp [standardStar, mixColor, hv]

/-- A small valid spiral configuration used by concrete witnesses. -/
def paramsSmall : GalaxyParams :=
  { type := GalaxyType.SPIRAL, starsCount := 1, radius := 5, branches := 1,
    spin := 1, randomness := 0.2, randomnessPower := 3,
    insideColor := (1, 0, 0), outsideColor := (0, 0, 1) }

/-- A valid spiral configuration with `starsCount = 0`. -/
def paramsEmpty : GalaxyParams :=
  { type := GalaxyType.SPIRAL, starsCount := 0, radius := 5, branches := 3,
    spin := 1, randomness := 0.2, randomnessPower := 3,
    insideColor := (1, 0, 0), outsideColor := (0, 0, 1) }

/-- C3 witness: concrete instances of all three degenerate cases —
`starsCount = 0` gives empty buffers, a positive radius gives finite colour
entries, and `radius = 0` gives all-NaN colour entries. -/
theorem degenerate_inputs_behavior_witness :
    ((standardGen paramsEmpty rndHalf).positions = []
      ∧ (standardGen paramsEmpty rndHalf).colors = [])
    ∧ (∀ c ∈ (standardGen paramsSmall rndHalf).colors, c.isSome = true)
    ∧ (∀ c ∈ (standardGen paramsRadius0 rndHalf).colors, c = none) :=
  ⟨(degenerate_inputs_behavior paramsEmpty rndHalf).1 rfl,
   (degenerate_inputs_behavior paramsSmall rndHalf).2.1 (by norm_num [paramsSmall]),
   (degenerate_inputs_behavior paramsRadius0 rndHalf).2.2 rfl⟩

/-- C8: for every configuration handled by the standard galaxy block with
`radius > 0` and a radius draw in `[0, 1]`, the generated particle's colour
is the convex combination of `insideColor` and `outsideColor` whose
interpolation fraction is exactly `r / radius = u^1.5 ∈ [0, 1]`. -/
theorem standard_color_convex_combination (p : GalaxyParams) (count : ℕ)
    (rnd : ℕ → ℝ) (i : ℕ) (hR : 0 < p.radius) (h0 : 0 ≤ rnd 0) (h1 : rnd 0 ≤ 1) :
    ∃ t, jsDiv (standardRadius p rnd) p.radius = some t ∧ 0 ≤ t ∧ t ≤ 1
      ∧ (standardStar p count rnd i).2
          = (some ((1 - t) * p.insideColor.1 + t * p.outsideColor.1),
             some ((1 - t) * p.insideColor.2.1 + t * p.outsideColor.2.1),
             some ((1 - t) * p.insideColor.2.2 + t * p.outsideColor.2.2)) := by
  have hne : p.radius ≠ 0 := ne_of_gt hR
  have hfac : jsDiv (standardRadius p rnd) p.radius = some (rnd 0 ^ (1.5 : ℝ)) := by
    unfold jsDiv standardRadius
    rw [if_neg hne, mul_div_assoc, div_self hne, mul_one]
  refine ⟨rnd 0 ^ (1.5 : ℝ), hfac, Real.rpow_nonneg h0 _,
    Real.rpow_le_one h0 h1 (by norm_num), ?_⟩
  show mixColor p.insideColor p.outsideColor (jsDiv (standardRadius p rnd) p.radius) = _
  rw [hfac]
  simp only [mixColor, Option.map_some', lerpChannel, Prod.mk.injEq, Option.some.injEq]
  refine ⟨by ring, by ring, by ring⟩

/-- C8 witness: the convex-combination colour rule at a concrete valid
spiral configuration and the constant-1/2 random stream. -/
theorem standard_color_convex_combination_witness :
    ∃ t, jsDiv (standardRadius paramsSmall (rndHalf 0)) paramsSmall.radius = some t
      ∧ 0 ≤ t ∧ t ≤ 1
      ∧ (standardStar paramsSmall 1 (rndHalf 0) 0).2
          = (some ((1 - t) * paramsSmall.insideColor.1 + t * paramsSmall.outsideColor.1),
             some ((1 - t) * paramsSmall.insideColor.2.1 + t * paramsSmall.outsideColor.2.1),
             some ((1 - t) * paramsSmall.insideColor.2.2 + t * paramsSmall.outsideColor.2.2)) :=
  standard_color_convex_combination paramsSmall 1 (rndHalf 0) 0
    (by norm_num [paramsSmall]) (by norm_num [rndHalf]) (by norm_num [rndHalf])

end
